import Mathlib

/-!
Shallow embedding of the mkosi Gentoo backend: `src/mkosi/installer/emerge.py`
(class `Emerge`) and `src/mkosi/distributions/gentoo.py` (class `Installer`).

Python strings are modelled as lists of characters (`Str`), filesystem paths
as lists of path components (`Pth`).  The stateful parts of `Emerge.setup`
are modelled as explicit state passing over a small cache-state record, with
an event trace recording the externally visible actions (index fetch over the
network, directory eviction, archive download, tar extraction, tools-tree
copy).
-/

deriving instance DecidableEq for Except

namespace Emerge

/-- Python strings are modelled as lists of characters. -/
abbrev Str := List Char

/-- Filesystem paths are modelled as lists of path components. -/
abbrev Pth := List Str

/-! ## Snapshot resolution (`Emerge.setup`, lines 147-158)

The index document is matched line by line against the regular expression
`^[0-9]+T[0-9]+Z/stage3-{arch}-nomultilib-systemd-[0-9]+T[0-9]+Z\.tar\.xz`
(`re.match`, i.e. anchored at the start of the line only); the match of the
first matching line is taken, and `die` is called when no line matches. -/

/-- Consume one or more leading decimal digits (the regex piece `[0-9]+`,
with maximal munch, which is equivalent to the backtracking semantics here
because every continuation of the pattern starts with a non-digit). -/
def takeDigits1 : Str → Option (Str × Str)
  | [] => none
  | c :: cs =>
    if c.isDigit then some (c :: cs.takeWhile Char.isDigit, cs.dropWhile Char.isDigit)
    else none

/-- Consume a literal string (a literal piece of the regex). -/
def takeLit (lit : Str) (s : Str) : Option (Str × Str) :=
  if lit.isPrefixOf s then some (lit, s.drop lit.length) else none

/-- The anchored prefix match of
`[0-9]+T[0-9]+Z/stage3-{arch}-nomultilib-systemd-[0-9]+T[0-9]+Z\.tar\.xz`
against `line`; returns `m.group(0)`, the matched prefix, as the code does. -/
def stage3Match (arch : Str) (line : Str) : Option Str := do
  let (d1, s) ← takeDigits1 line
  let (l1, s) ← takeLit "T".data s
  let (d2, s) ← takeDigits1 s
  let (l2, s) ← takeLit ("Z/stage3-".data ++ arch ++ "-nomultilib-systemd-".data) s
  let (d3, s) ← takeDigits1 s
  let (l3, s) ← takeLit "T".data s
  let (d4, s) ← takeDigits1 s
  let (l4, _s) ← takeLit "Z.tar.xz".data s
  pure (d1 ++ l1 ++ d2 ++ l2 ++ d3 ++ l3 ++ d4 ++ l4)

/-- The `for line in all_lines: if (m := re.match(...)): ... break / else: die(...)`
loop of `Emerge.setup`: return the match of the first matching line, or fail
(the `die` call, the UpstreamFormatError of the spec) when no line matches. -/
def resolve_latest (arch : Str) : List Str → Except Unit Str
  | [] => .error ()
  | line :: rest =>
    match stage3Match arch line with
    | some m => .ok m
    | none => resolve_latest arch rest

/-! ## The stage3 cache and `Emerge.setup` (lines 136-202)

`setup` resolves the architecture, fetches the index over the network, resolves
the snapshot, and then: if `<cache>/<ts>/<archive>` does not exist it removes
every subdirectory of the cache dir other than the snapshot directory, makes
the snapshot directory and downloads the archive with
`curl --output-dir <dir> --remote-name --fail <url>`; it then sets the class
attributes `stage3 = <cache>/root` and `installroot = /tmp/root`, extracts the
archive into `<cache>/root` when that directory does not exist, and finally
copies the tools tree on top when one is configured. -/

/-- The class attributes `Emerge.stage3` and `Emerge.installroot` assigned at
lines 192-194 of `setup`. -/
structure ClassState where
  stage3 : Pth
  installroot : Pth
deriving DecidableEq, Repr

/-- Externally visible actions of `setup`, in program order. -/
inductive Event
  | indexFetch
  | evict (name : Str)
  | mkdirOut (name : Str)
  | archiveFetch
  | extract
  | copyTools
deriving DecidableEq, Repr

/-- Fatal outcomes of `setup`: the `die` call for an unmatched index, a curl
failure propagated by `run` (whose `check` parameter defaults to true), or a
process-level interruption in the middle of the download. -/
inductive SetupErr
  | upstreamFormat
  | downloadFailed
  | interrupted
deriving DecidableEq, Repr

/-- Outcome of the `curl` download: success, an HTTP error (with `--fail`
curl exits non-zero without writing the body), or an interruption of the
transfer, which leaves a partial file at the output path because curl with
`--remote-name` writes directly to `<output-dir>/<archive-name>`. -/
inductive DlOutcome
  | ok
  | httpError
  | interrupted
deriving DecidableEq, Repr

/-- On-disk state of the stage3 cache directory: its immediate subdirectories
(by name), and the files inside them as (directory, name, complete?) where the
completeness flag records whether the file holds the whole archive. -/
structure CacheState where
  dirs : List Str
  files : List (Str × Str × Bool)
deriving DecidableEq, Repr

/-- Result of one `setup` run: final cache state, event trace, the class
attributes assigned (none when `setup` aborted before line 192), and the
fatal error if any. -/
structure SetupResult where
  cache : CacheState
  events : List Event
  cls : Option ClassState
  err : Option SetupErr
deriving DecidableEq, Repr

/-- Model of `Path(m).parent` for the matched snapshot path (everything before the
single slash the pattern contains). -/
def dirPart (m : Str) : Str := m.takeWhile (fun c => decide (c ≠ '/'))

/-- Model of `Path(m).name` for the matched snapshot path (everything after the slash). -/
def filePart (m : Str) : Str := (m.dropWhile (fun c => decide (c ≠ '/'))).drop 1

/-- The `(stage3_cache_dir / current).exists()` check of line 165: the file is
present at `<cache>/<d>/<n>`, complete or not — `Path.exists` cannot tell a
partial download from a finished one. -/
def existsArchive (st : CacheState) (d n : Str) : Bool :=
  st.files.any (fun f => decide (f.1 = d ∧ f.2.1 = n))

/-- Lines 192-202 of `setup`: assign the class attributes, extract the archive
into `<cache>/root` when that directory does not exist, and copy the tools
tree on top when configured. -/
def afterFetch (cacheDir : Pth) (tools : Bool) (st : CacheState) (evs : List Event) :
    SetupResult :=
  let cls : ClassState := ⟨cacheDir ++ ["root".data], ["tmp".data, "root".data]⟩
  if "root".data ∈ st.dirs then
    ⟨st, evs ++ (if tools then [Event.copyTools] else []), some cls, none⟩
  else
    ⟨⟨st.dirs ++ ["root".data], st.files⟩,
      evs ++ [Event.extract] ++ (if tools then [Event.copyTools] else []),
      some cls, none⟩

/-- Model of `Emerge.setup` (lines 136-202), as a function of the resolved architecture
string, the fetched index lines, whether a tools tree is configured, the
download outcome, and the prior cache state. -/
def setup (cacheDir : Pth) (arch : Str) (indexLines : List Str) (tools : Bool)
    (dl : DlOutcome) (st : CacheState) : SetupResult :=
  match resolve_latest arch indexLines with
  | .error _ => ⟨st, [Event.indexFetch], none, some SetupErr.upstreamFormat⟩
  | .ok m =>
    let d := dirPart m
    let n := filePart m
    if existsArchive st d n then
      afterFetch cacheDir tools st [Event.indexFetch]
    else
      let evicts := (st.dirs.filter (fun i => decide (i ≠ d))).map Event.evict
      let st1 : CacheState :=
        ⟨st.dirs.filter (fun i => decide (i = d)), st.files.filter (fun f => decide (f.1 = d))⟩
      let st2 : CacheState :=
        ⟨if d ∈ st1.dirs then st1.dirs else st1.dirs ++ [d], st1.files⟩
      let evs := Event.indexFetch :: evicts ++ [Event.mkdirOut d, Event.archiveFetch]
      match dl with
      | DlOutcome.ok => afterFetch cacheDir tools ⟨st2.dirs, st2.files ++ [(d, n, true)]⟩ evs
      | DlOutcome.httpError => ⟨st2, evs, none, some SetupErr.downloadFailed⟩
      | DlOutcome.interrupted =>
          ⟨⟨st2.dirs, st2.files ++ [(d, n, false)]⟩, evs, none, some SetupErr.interrupted⟩

/-- Network actions among the setup events: the index fetch and the archive
download. -/
def isNetwork : Event → Bool
  | Event.indexFetch => true
  | Event.archiveFetch => true
  | _ => false

/-! ## `Emerge.features` (lines 204-219) -/

/-- The slice of `mkosi.config.Config` consulted by `Emerge.features`. -/
structure Config where
  with_docs : Bool
deriving DecidableEq, Repr

/-- The list joined by `' '.join(...)` in `Emerge.features`, verbatim from the
source: the documentation flags are appended when `config.with_docs` is true. -/
def featuresList (config : Config) : List Str :=
  ["-sandbox".data, "-pid-sandbox".data, "-ipc-sandbox".data, "-network-sandbox".data,
   "-news".data, "-userfetch".data, "-userpriv".data, "-usersandbox".data, "-usersync".data,
   "parallel-install".data] ++
    (if config.with_docs then ["noman".data, "nodoc".data, "noinfo".data] else [])

/-- Model of `' '.join(...)`. -/
def joinSpace : List Str → Str
  | [] => []
  | [s] => s
  | s :: rest => s ++ ' ' :: joinSpace rest

/-- Model of `Emerge.features`. -/
def features (config : Config) : Str := joinSpace (featuresList config)

/-! ## `Emerge.sync` (lines 290-316) -/

/-- Observable behaviour of one `sync` call. -/
structure SyncResult where
  logged : Bool
  invoked : Bool
  raised : Bool
deriving DecidableEq, Repr

/-- Model of `Emerge.sync`: logs an informational message when `force` is set or
`<stage3>/var/db/repos/gentoo` is missing or empty, returns without doing
anything else when `force` is unset, and otherwise runs `emerge --sync` with
`check=False`, so the exit status of the invocation `syncExit` never raises. -/
def sync (force : Bool) (gentooRepoNonEmpty : Bool) (_syncExit : Nat) : SyncResult :=
  let logged := force || !gentooRepoNonEmpty
  if !force then ⟨logged, false, false⟩
  else ⟨logged, true, false⟩

/-! ## `Emerge.cmd`, `Emerge.invoke`, `Emerge.install` (lines 221-331) -/

/-- Render an absolute path the way Python renders `str(Path("/tmp/root"))`. -/
def renderAbs (p : Pth) : Str := p.foldl (fun acc c => acc ++ '/' :: c) []

/-- Model of `Emerge.cmd` (lines 221-240); the final argument is
`f"--root=\x7bcls.installroot\x7d"`. -/
def cmd (debug : Bool) (executable : Str) (installroot : Pth) : List Str :=
  [executable, "--buildpkg=y".data, "--usepkg=y".data, "--binpkg-respect-use=y".data,
   "--jobs".data, "--load-average".data, "--root-deps=rdeps".data,
   "--with-bdeps-auto=n".data, "--verbose-conflicts".data, "--noreplace".data,
   "--update".data, "--newuse".data] ++
    (if debug then ["--verbose".data, "--quiet-fail=n".data]
     else ["--quiet-build".data, "--quiet".data]) ++
    ["--root=".data ++ renderAbs installroot]

/-- The result type of a process invocation (`mkosi.run.CompletedProcess`). -/
structure CompletedProcess where
  returncode : Nat
deriving DecidableEq, Repr

/-- Modelled from the spec: `mkosi.run.run` is not under `src/`; §4.4
describes the sandboxed invoker as returning an execution result carrying the
exit code — a non-zero exit is returned as part of the result, not raised. -/
def runCmd (_cmdline : List Str) (exitCode : Nat) : CompletedProcess := ⟨exitCode⟩

/-- One spawned process: its command line and its exit code. -/
inductive InvEvent
  | ran (cmdline : List Str) (exitCode : Nat)
deriving DecidableEq, Repr

/-- Model of `Emerge.invoke` (lines 262-288): when `ARG_DEBUG` is set, first run
`cmd + ["--info"]` and discard its result; then run
`cmd + options + arguments` and return the result of that invocation. -/
def invoke (debug : Bool) (executable : Str) (installroot : Pth)
    (options arguments : List Str) (infoExit mainExit : Nat) :
    List InvEvent × CompletedProcess :=
  let pre := if debug then
      [InvEvent.ran (cmd debug executable installroot ++ ["--info".data]) infoExit]
    else []
  let main := cmd debug executable installroot ++ options ++ arguments
  (pre ++ [InvEvent.ran main mainExit], runCmd main mainExit)

/-- Method `Emerge.sync` does not assign any class attribute, so it returns the
class state it was given unchanged. -/
def syncCls (s : ClassState) (force gentooRepoNonEmpty : Bool) (syncExit : Nat) :
    ClassState × SyncResult := (s, sync force gentooRepoNonEmpty syncExit)

/-- Method `Emerge.invoke` does not assign any class attribute; its command line is
built by `cmd` from the class-level `installroot`. -/
def invokeCls (s : ClassState) (debug : Bool) (executable : Str)
    (options arguments : List Str) (infoExit mainExit : Nat) :
    ClassState × (List InvEvent × CompletedProcess) :=
  (s, invoke debug executable s.installroot options arguments infoExit mainExit)

/-- Model of `Emerge.install` (lines 323-331): `cls.invoke(context, cls.installroot,
(), packages)` — the packages land in the `options` parameter of `invoke` and the
`arguments` parameter stays empty; no class attribute is assigned. -/
def installCls (s : ClassState) (debug : Bool) (executable : Str)
    (packages : List Str) (infoExit mainExit : Nat) :
    ClassState × (List InvEvent × CompletedProcess) :=
  (s, invoke debug executable s.installroot packages [] infoExit mainExit)

/-! ## `Emerge.mounts` (lines 82-134) -/

/-- A sandbox command-line directive produced by `Emerge.mounts`. -/
inductive Mount
  | bind (src dst : Pth)
  | roBind (src dst : Pth)
  | overlayLower (src : Pth)
  | overlayUpper (src : Pth)
  | overlay (dst : Pth)
  | symlink (target dst : Pth)
deriving DecidableEq, Repr

/-- The inputs `Emerge.mounts` reads: the class-level `stage3` and
`installroot` paths, `context.sandbox_tree`, `config.package_cache_dir`, the
set of paths that exist on disk (for the two `.exists()` checks and for
talking about bind sources), and the target of the
`<stage3>/etc/portage/make.profile` symlink (`none` when that path is not a
symlink, in which case `Path.readlink` raises `OSError`). -/
structure MountCtx where
  stage3 : Pth
  installroot : Pth
  sandbox_tree : Pth
  package_cache_dir : Option Pth
  existing : List Pth
  make_profile_target : Option Pth
deriving DecidableEq, Repr

/-- Model of `Emerge.mounts`, verbatim from the source. `superMounts` stands for
`super().mounts(context)`; `mkosi.installer.PackageManager.mounts` is not
under `src/` — per spec §4.3 the base-class contribution consists of bind
directives for package-manager state directories, never overlay directives. -/
def mounts (superMounts : List Mount) (ctx : MountCtx) : Except Unit (List Mount) :=
  match ctx.make_profile_target with
  | none => .error ()
  | some tgt =>
    .ok (superMounts ++
      [Mount.bind (ctx.stage3 ++ ["opt".data]) ["opt".data],
       Mount.bind (ctx.stage3 ++ ["usr".data]) ["usr".data],
       Mount.bind (ctx.stage3 ++ ["etc".data]) ["etc".data],
       Mount.bind (ctx.stage3 ++ ["etc".data, "shadow".data]) ["etc".data, "shadow".data],
       Mount.bind (ctx.stage3 ++ ["etc".data, "gshadow".data]) ["etc".data, "gshadow".data],
       Mount.bind (ctx.stage3 ++ ["etc".data, "passwd".data]) ["etc".data, "passwd".data],
       Mount.bind (ctx.stage3 ++ ["etc".data, "group".data]) ["etc".data, "group".data],
       Mount.bind (ctx.stage3 ++ ["var".data, "cache".data, "edb".data])
         ["var".data, "cache".data, "edb".data],
       Mount.bind (ctx.stage3 ++ ["var".data, "lib".data, "portage".data])
         ["var".data, "lib".data, "portage".data],
       Mount.bind (ctx.stage3 ++ ["var".data, "db".data, "pkg".data])
         ["var".data, "db".data, "pkg".data]] ++
      (match ctx.package_cache_dir with
       | some p =>
         [Mount.bind (p ++ ["var".data, "cache".data, "binpkgs".data])
            ["var".data, "cache".data, "binpkgs".data],
          Mount.bind (p ++ ["var".data, "cache".data, "distfiles".data])
            ["var".data, "cache".data, "distfiles".data],
          Mount.roBind (p ++ ["var".data, "db".data, "repos".data])
            ["var".data, "db".data, "repos".data],
          Mount.roBind (p ++ ["var".data, "db".data, "repos".data])
            (ctx.installroot ++ ["var".data, "db".data, "repos".data])]
       | none => []) ++
      (if (ctx.sandbox_tree ++ ["stage3".data, "etc".data, "portage".data]) ∈ ctx.existing then
        [Mount.overlayLower (ctx.sandbox_tree ++ ["stage3".data, "etc".data, "portage".data])]
       else
        [Mount.overlayLower (ctx.stage3 ++ ["etc".data, "portage".data])]) ++
      [Mount.overlayUpper ["tmpfs".data], Mount.overlay ["etc".data, "portage".data]] ++
      (if (ctx.sandbox_tree ++ ["installroot".data, "etc".data, "portage".data]) ∈ ctx.existing
       then
        [Mount.bind (ctx.sandbox_tree ++ ["installroot".data, "etc".data, "portage".data])
          (ctx.installroot ++ ["etc".data, "portage".data])]
       else []) ++
      [Mount.symlink tgt (ctx.installroot ++ ["etc".data, "portage".data, "make.profile".data])])

/-- The overlay-family directives among a directive list. -/
def isOverlayDirective : Mount → Bool
  | Mount.overlayLower _ => true
  | Mount.overlayUpper _ => true
  | Mount.overlay _ => true
  | _ => false

/-- Sources named by bind and read-only-bind directives. -/
def bindSrcs : List Mount → List Pth
  | [] => []
  | Mount.bind s _ :: ms => s :: bindSrcs ms
  | Mount.roBind s _ :: ms => s :: bindSrcs ms
  | _ :: ms => bindSrcs ms

/-! ## `Installer.install_packages` (gentoo.py lines 57-70) -/

/-- One filesystem entry in the install root. -/
inductive FsEntry
  | dir
  | file
  | symlink (target : Pth)
deriving DecidableEq, Repr

/-- The install root (`context.root`) as a finite map from relative paths to
entries. -/
structure FS where
  entries : List (Pth × FsEntry)
deriving DecidableEq, Repr

/-- Lookup of a path in the install root. -/
def lookupEntry : List (Pth × FsEntry) → Pth → Option FsEntry
  | [], _ => none
  | e :: es, p => if e.1 = p then some e.2 else lookupEntry es p

/-- Model of `context.root.glob("usr/src/linux-*")`: the names of entries directly
under `usr/src` whose name starts with `linux-`, in directory order. -/
def linuxSrcNames (fs : FS) : List Str :=
  fs.entries.filterMap (fun e =>
    match e.1 with
    | [a, b, nm] =>
      if a = "usr".data ∧ b = "src".data ∧ "linux-".data.isPrefixOf nm = true then some nm
      else none
    | _ => none)

/-- The canonical architectures the kernel-image table of
`Installer.install_packages` covers. -/
inductive Arch
  | x86_64
  | arm64
  | arm
deriving DecidableEq, Repr

/-- The architecture-to-kernel-image table of `Installer.install_packages`. -/
def kimgRel : Arch → Pth
  | Arch.x86_64 => ["arch".data, "x86".data, "boot".data, "bzImage".data]
  | Arch.arm64 => ["arch".data, "arm64".data, "boot".data, "Image.gz".data]
  | Arch.arm => ["arch".data, "arm".data, "boot".data, "zImage".data]

/-- Model of `os.path.relpath(path, start)` on purely relative component paths: strip
the longest common prefix, then one `..` per remaining start component. -/
def relpathAux : Pth → Pth → Pth
  | p, [] => p
  | [], s => s.map (fun _ => "..".data)
  | q :: qs, s :: ss =>
    if q = s then relpathAux qs ss else (s :: ss).map (fun _ => "..".data) ++ q :: qs

/-- One iteration of the `for d in context.root.glob("usr/src/linux-*")` loop:
`kver = d.name.removeprefix("linux-")`; create
`usr/lib/modules/<kver>/vmlinuz` as a relative symlink to the kernel image
unless an entry already exists there (`vmlinuz.exists() or
vmlinuz.is_symlink()` covers files, directories, and symlinks broken or not —
i.e. any entry at that path); `Path.symlink_to` raises `FileNotFoundError`
when the parent directory is missing. -/
def addVmlinuz (arch : Arch) (fs : FS) (nm : Str) : Except Unit FS :=
  let kver := nm.drop 6
  let kimg : Pth := ["usr".data, "src".data, nm] ++ kimgRel arch
  let vmParent : Pth := ["usr".data, "lib".data, "modules".data, kver]
  let vm : Pth := vmParent ++ ["vmlinuz".data]
  if (lookupEntry fs.entries vm).isSome then .ok fs
  else if lookupEntry fs.entries vmParent = some FsEntry.dir then
    .ok ⟨fs.entries ++ [(vm, FsEntry.symlink (relpathAux kimg vmParent))]⟩
  else .error ()

/-- The kernel-symlink post-step of `Installer.install_packages` (gentoo.py
lines 61-70); the preceding `Emerge.install` call is the sandboxed package
installation, whose effect on the root is already reflected in the input
`fs`. -/
def install_packages (arch : Arch) (fs : FS) : Except Unit FS :=
  (linuxSrcNames fs).foldlM (addVmlinuz arch) fs

/-! ## Concrete inputs used by witnesses and counterexamples -/

/-- A well-formed index line for architecture amd64. -/
def goodLine : Str :=
  "20250101T000000Z/stage3-amd64-nomultilib-systemd-20250101T000000Z.tar.xz".data

/-- The directory component of `goodLine`. -/
def tsDir : Str := "20250101T000000Z".data

/-- The archive-name component of `goodLine`. -/
def archName : Str := "stage3-amd64-nomultilib-systemd-20250101T000000Z.tar.xz".data

/-- A cache that already holds the complete archive and the extracted root. -/
def warmCache : CacheState := ⟨[tsDir, "root".data], [(tsDir, archName, true)]⟩

/-- An empty cache. -/
def coldCache : CacheState := ⟨[], []⟩

/-- A cache holding only a previous snapshot generation and the extracted
root. -/
def staleCache : CacheState := ⟨["20240101T000000Z".data, "root".data], []⟩

/-- Helper to read off the payload of a `mounts` result. -/
def mountsList (r : Except Unit (List Mount)) : List Mount :=
  match r with
  | .ok l => l
  | .error _ => []

/-- Helper: did `mounts` succeed? -/
def mountsOk (r : Except Unit (List Mount)) : Bool :=
  match r with
  | .ok _ => true
  | .error _ => false

/-- A mount context whose stage3 tree is entirely absent on disk (no path
exists) while `make.profile` still reads as a symlink; used to show that
`mounts` performs no source-path validation. -/
def ctx0 : MountCtx :=
  ⟨["stage3root".data], ["tmp".data, "root".data], ["sbt".data], none, [],
   some ["..".data, "..".data, "usr".data, "share".data, "portage".data]⟩

/-- An install root holding one kernel source tree and its module directory. -/
def fs9 : FS :=
  ⟨[(["usr".data, "src".data, "linux-5.10.0".data], FsEntry.dir),
    (["usr".data, "lib".data, "modules".data, "5.10.0".data], FsEntry.dir)]⟩

/-! ## Helper lemmas -/

/-- Resolution fails exactly when no line matches. -/
theorem resolve_latest_error_iff (arch : Str) (lines : List Str) :
    resolve_latest arch lines = .error () ↔ ∀ l ∈ lines, stage3Match arch l = none := by
  induction lines with
  | nil => simp [resolve_latest]
  | cons x xs ih =>
    cases h : stage3Match arch x with
    | some m => simp [resolve_latest, h]
    | none => simp [resolve_latest, h, ih]

/-- Resolution returns the match of the first matching line. -/
theorem resolve_latest_first (arch : Str) (pre : List Str) (line : Str) (post : List Str)
    (m : Str) (hpre : ∀ l ∈ pre, stage3Match arch l = none)
    (hm : stage3Match arch line = some m) :
    resolve_latest arch (pre ++ line :: post) = .ok m := by
  induction pre with
  | nil => simp [resolve_latest, hm]
  | cons x xs ih =>
    have hx : stage3Match arch x = none := hpre x (List.mem_cons_self x xs)
    simpa [resolve_latest, hx] using ih (fun l hl => hpre l (List.mem_cons_of_mem x hl))

/-- A successful resolution comes from a matching line of the index. -/
theorem resolve_latest_ok_match {arch : Str} {lines : List Str} {m : Str}
    (h : resolve_latest arch lines = .ok m) :
    ∃ l ∈ lines, stage3Match arch l = some m := by
  induction lines with
  | nil => simp [resolve_latest] at h
  | cons x xs ih =>
    cases hx : stage3Match arch x with
    | some mm =>
      rw [resolve_latest, hx] at h
      exact ⟨x, List.mem_cons_self x xs, by rw [hx]; injection h with h2; rw [h2]⟩
    | none =>
      rw [resolve_latest, hx] at h
      obtain ⟨l, hl, hml⟩ := ih h
      exact ⟨l, List.mem_cons_of_mem x hl, hml⟩

/-- A successful `takeDigits1` starts with a digit. -/
theorem takeDigits1_head {s d r : Str} (h : takeDigits1 s = some (d, r)) :
    ∃ c cs, d = c :: cs ∧ c.isDigit = true := by
  cases s with
  | nil => simp [takeDigits1] at h
  | cons c cs =>
    by_cases hc : c.isDigit = true
    · refine ⟨c, cs.takeWhile Char.isDigit, ?_, hc⟩
      simp only [takeDigits1, hc, if_true, Option.some.injEq, Prod.mk.injEq] at h
      exact h.1.symm
    · simp [takeDigits1, hc] at h

/-- A successful snapshot match starts with a digit. -/
theorem stage3Match_head {arch line m : Str} (h : stage3Match arch line = some m) :
    ∃ c cs, m = c :: cs ∧ c.isDigit = true := by
  simp only [stage3Match, bind, Option.bind_eq_some, Option.pure_def,
    Option.some.injEq] at h
  obtain ⟨⟨d1, s1⟩, h1, ⟨l1, s2⟩, hl1, ⟨d2, s3⟩, h2, ⟨l2, s4⟩, hl2, ⟨d3, s5⟩, h3,
    ⟨l3, s6⟩, hl3, ⟨d4, s7⟩, h4, ⟨l4, s8⟩, hl4, hm⟩ := h
  obtain ⟨c, cs, hd, hdig⟩ := takeDigits1_head h1
  exact ⟨c, cs ++ l1 ++ d2 ++ l2 ++ d3 ++ l3 ++ d4 ++ l4, by
    rw [← hm, hd]; simp, hdig⟩

/-- The directory component of a successful snapshot match is never `root`. -/
theorem stage3Match_dirPart_ne_root {arch line m : Str} (h : stage3Match arch line = some m) :
    dirPart m ≠ "root".data := by
  obtain ⟨c, cs, rfl, hdig⟩ := stage3Match_head h
  have hslash : c ≠ '/' := by
    intro he; rw [he] at hdig; exact absurd hdig (by decide)
  intro hcon
  rw [dirPart, List.takeWhile_cons, if_pos (by simpa using hslash)] at hcon
  injection hcon with h1 h2
  rw [h1] at hdig
  exact absurd hdig (by decide)

/-! ## Claim theorems -/

/-- Claim C2: for every index document, snapshot resolution scans the lines
top-to-bottom and returns the first line matching the snapshot pattern
(timestamp-prefixed directory, target architecture, fixed variant tag, fixed
archive extension, as encoded in `stage3Match`); it fails (the `die` call,
the UpstreamFormatError of the spec) if and only if no line matches, and in that
failure case `setup` performs no archive fetch (its whole event trace is the
index fetch alone). -/
theorem claim_c2_resolver (arch : Str) (lines : List Str) :
    (resolve_latest arch lines = .error () ↔ ∀ l ∈ lines, stage3Match arch l = none) ∧
    (∀ pre line post m, lines = pre ++ line :: post →
      (∀ l ∈ pre, stage3Match arch l = none) → stage3Match arch line = some m →
      resolve_latest arch lines = .ok m) ∧
    (resolve_latest arch lines = .error () →
      ∀ cacheDir tools dl st,
        (setup cacheDir arch lines tools dl st).events = [Event.indexFetch] ∧
        (setup cacheDir arch lines tools dl st).err = some SetupErr.upstreamFormat) := by
  refine ⟨resolve_latest_error_iff arch lines, ?_, ?_⟩
  · intro pre line post m hsplit hpre hm
    rw [hsplit]
    exact resolve_latest_first arch pre line post m hpre hm
  · intro herr cacheDir tools dl st
    unfold setup
    rw [herr]
    exact ⟨rfl, rfl⟩

/-- Witness for C2 at a concrete index: a non-matching first line is skipped,
the matching second line is returned exactly, and on an index with no match
setup only fetches the index. -/
theorem claim_c2_resolver_witness :
    resolve_latest "amd64".data ["garbage".data, goodLine] = .ok goodLine ∧
    (setup ["cache".data] "amd64".data ["garbage".data] false DlOutcome.ok coldCache).events =
      [Event.indexFetch] := by
  constructor
  · exact (claim_c2_resolver "amd64".data ["garbage".data, goodLine]).2.1
      ["garbage".data] goodLine [] goodLine rfl (by decide) (by decide)
  · exact ((claim_c2_resolver "amd64".data ["garbage".data]).2.2 (by decide)
      ["cache".data] false DlOutcome.ok coldCache).1

/-- Claim C4 (counterexample): with `force` set and the sync invocation
failing (exit status 1), `sync` does not raise — the failure is not fatal,
contrary to the claim; moreover with `force` unset and empty repository
metadata no sync invocation happens at all, so the "mandatory" case does not
sync either. -/
theorem claim_c4_counterexample :
    (sync true true 1).invoked = true ∧ (sync true true 1).raised = false ∧
    (sync false false 0).invoked = false := by decide

/-- Claim C4 (amended): `sync` runs the sync invocation exactly when `force`
is set and never treats its failure as fatal (the call passes `check=False`);
when `force` is unset it returns without syncing, and it logs its
informational message exactly when `force` is set or the repository metadata
is absent/empty. -/
theorem claim_c4_amended (force gentooRepoNonEmpty : Bool) (syncExit : Nat) :
    (sync force gentooRepoNonEmpty syncExit).raised = false ∧
    (sync force gentooRepoNonEmpty syncExit).invoked = force ∧
    (sync force gentooRepoNonEmpty syncExit).logged = (force || !gentooRepoNonEmpty) := by
  cases force <;> simp [sync]

/-- Claim C5 (code bug): the feature string always disables the internal emerge
sandboxing and always enables parallel installation, but the
documentation-suppression flags `noman nodoc noinfo` are included exactly
when `config.with_docs` is TRUE — i.e. when the build is configured to
include documentation — the opposite of the claim. -/
theorem claim_c5_doc_flags_inverted :
    ("-sandbox".data ∈ featuresList ⟨false⟩ ∧ "-pid-sandbox".data ∈ featuresList ⟨false⟩ ∧
      "-ipc-sandbox".data ∈ featuresList ⟨false⟩ ∧
      "-network-sandbox".data ∈ featuresList ⟨false⟩ ∧
      "parallel-install".data ∈ featuresList ⟨false⟩ ∧
      "-sandbox".data ∈ featuresList ⟨true⟩ ∧ "-pid-sandbox".data ∈ featuresList ⟨true⟩ ∧
      "-ipc-sandbox".data ∈ featuresList ⟨true⟩ ∧
      "-network-sandbox".data ∈ featuresList ⟨true⟩ ∧
      "parallel-install".data ∈ featuresList ⟨true⟩) ∧
    ("noman".data ∉ featuresList ⟨false⟩ ∧ "nodoc".data ∉ featuresList ⟨false⟩ ∧
      "noinfo".data ∉ featuresList ⟨false⟩) ∧
    ("noman".data ∈ featuresList ⟨true⟩ ∧ "nodoc".data ∈ featuresList ⟨true⟩ ∧
      "noinfo".data ∈ featuresList ⟨true⟩) := by decide

/-- Claim C8: every invocation through `invoke` hands back the package
manager exit code as part of the returned result (the spec-modelled `run`
of §4.4 returns rather than raises), the returned result is independent of
the diagnostic `--info` exit code of the pre-invocation, and in debug mode that
pre-invocation is issued first, routed like the real one, with its result
discarded. -/
theorem claim_c8_invoke (debug : Bool) (executable : Str) (installroot : Pth)
    (options arguments : List Str) (infoExit mainExit : Nat) :
    (invoke debug executable installroot options arguments infoExit mainExit).2 =
      ⟨mainExit⟩ ∧
    (∀ i, (invoke debug executable installroot options arguments i mainExit).2 =
      (invoke debug executable installroot options arguments infoExit mainExit).2) ∧
    (invoke true executable installroot options arguments infoExit mainExit).1 =
      [InvEvent.ran (cmd true executable installroot ++ ["--info".data]) infoExit,
       InvEvent.ran (cmd true executable installroot ++ options ++ arguments) mainExit] := by
  exact ⟨rfl, fun i => rfl, rfl⟩

/-- Claim C1 (code bug): an interrupted download leaves the partial archive
at its final cache path (curl writes with `--remote-name` directly into the
output directory, no temporary name and rename), the run itself aborts
fatally, but the existence check of a later `setup` run recognizes the partial
file as present and skips the fetch entirely. -/
theorem claim_c1_partial_file_recognized :
    (setup ["cache".data] "amd64".data [goodLine] false DlOutcome.interrupted coldCache).err =
      some SetupErr.interrupted ∧
    (tsDir, archName, false) ∈
      (setup ["cache".data] "amd64".data [goodLine] false
        DlOutcome.interrupted coldCache).cache.files ∧
    existsArchive
      (setup ["cache".data] "amd64".data [goodLine] false DlOutcome.interrupted coldCache).cache
      tsDir archName = true ∧
    ((setup ["cache".data] "amd64".data [goodLine] false DlOutcome.ok
        (setup ["cache".data] "amd64".data [goodLine] false
          DlOutcome.interrupted coldCache).cache).events.filter
      (fun e => decide (e = Event.archiveFetch))) = [] := by decide

/-- Claim C6 (amended): when the resolved archive is already cached the fetch
step performs no network access and no eviction, when the extracted root
already exists no extraction is performed, and a second `setup` with an
unchanged index and warm cache performs zero archive downloads and zero
extraction work and leaves the cache untouched — but it still fetches the
index document over the network. -/
theorem claim_c6_amended (cacheDir : Pth) (arch : Str) (lines : List Str) (tools : Bool)
    (dl : DlOutcome) (st : CacheState) (m : Str)
    (hres : resolve_latest arch lines = .ok m)
    (hcached : existsArchive st (dirPart m) (filePart m) = true) :
    (setup cacheDir arch lines tools dl st).events =
      Event.indexFetch ::
        ((if "root".data ∈ st.dirs then [] else [Event.extract]) ++
          (if tools then [Event.copyTools] else [])) ∧
    (setup cacheDir arch lines tools dl st).cache.files = st.files ∧
    ("root".data ∈ st.dirs → (setup cacheDir arch lines tools dl st).cache = st) := by
  unfold setup
  rw [hres]
  simp only [hcached, if_true]
  unfold afterFetch
  by_cases hroot : "root".data ∈ st.dirs
  · simp [hroot]
  · simp [hroot]

/-- Witness for C6 (amended) on a fully warm cache: the trace of the second run is
the index fetch alone and the cache is unchanged. -/
theorem claim_c6_amended_witness :
    (setup ["cache".data] "amd64".data [goodLine] false DlOutcome.ok warmCache).events =
      [Event.indexFetch] ∧
    (setup ["cache".data] "amd64".data [goodLine] false DlOutcome.ok warmCache).cache =
      warmCache := by
  have h := claim_c6_amended ["cache".data] "amd64".data [goodLine] false DlOutcome.ok
    warmCache goodLine (by decide) (by decide)
  refine ⟨?_, h.2.2 (by decide)⟩
  rw [h.1]
  decide

/-- Claim C6 (counterexample): on a fully warm cache with an unchanged index,
a second `setup` call still performs a network call — the index fetch — so
"performs zero network calls" is false (it does perform zero archive
downloads and zero extractions). -/
theorem claim_c6_counterexample :
    existsArchive warmCache tsDir archName = true ∧
    "root".data ∈ warmCache.dirs ∧
    (setup ["cache".data] "amd64".data [goodLine] false
        DlOutcome.ok warmCache).events.filter isNetwork ≠ [] := by decide

/-- Function `afterFetch` always assigns the class attributes. -/
theorem afterFetch_cls (cacheDir : Pth) (tools : Bool) (st : CacheState) (evs : List Event) :
    (afterFetch cacheDir tools st evs).cls =
      some ⟨cacheDir ++ ["root".data], ["tmp".data, "root".data]⟩ := by
  unfold afterFetch
  split <;> rfl

/-- Whenever `setup` reaches its class-attribute assignments, it assigns the
same two values: `stage3 = <cache>/root` and `installroot = /tmp/root`. -/
theorem setup_cls_eq {cacheDir : Pth} {arch : Str} {lines : List Str} {tools : Bool}
    {dl : DlOutcome} {st : CacheState} {s : ClassState}
    (h : (setup cacheDir arch lines tools dl st).cls = some s) :
    s = ⟨cacheDir ++ ["root".data], ["tmp".data, "root".data]⟩ := by
  unfold setup at h
  split at h
  · simp at h
  · split at h <;> dsimp only [] at h <;> split at h <;>
      first
        | (rw [afterFetch_cls] at h; exact (Option.some_inj.mp h).symm)
        | simp at h

/-- Claim C10: whatever the context and configuration, once `setup` assigns
the class attributes the install root is the fixed constant `/tmp/root`;
`cmd` targets it through a final `--root=/tmp/root` argument computed from
the class-level state; and the operations invoked after `setup` return the
class state unchanged (the source never assigns the class attributes
elsewhere). -/
theorem claim_c10_installroot (cacheDir : Pth) (arch : Str) (lines : List Str)
    (tools : Bool) (dl : DlOutcome) (st : CacheState) (s : ClassState)
    (h : (setup cacheDir arch lines tools dl st).cls = some s) :
    s.installroot = ["tmp".data, "root".data] ∧
    (∀ debug executable,
      (cmd debug executable s.installroot).getLast? = some "--root=/tmp/root".data) ∧
    (∀ force repoNonEmpty syncExit, (syncCls s force repoNonEmpty syncExit).1 = s) ∧
    (∀ debug executable options arguments infoExit mainExit,
      (invokeCls s debug executable options arguments infoExit mainExit).1 = s) ∧
    (∀ debug executable packages infoExit mainExit,
      (installCls s debug executable packages infoExit mainExit).1 = s) := by
  obtain rfl := setup_cls_eq h
  refine ⟨rfl, ?_, fun _ _ _ => rfl, fun _ _ _ _ _ _ => rfl, fun _ _ _ _ _ => rfl⟩
  intro debug executable
  cases debug <;> rfl

/-- Witness for C10 at a concrete successful setup. -/
theorem claim_c10_installroot_witness :
    (⟨["cache".data, "root".data], ["tmp".data, "root".data]⟩ : ClassState).installroot =
      ["tmp".data, "root".data] ∧
    (cmd false "emerge".data ["tmp".data, "root".data]).getLast? =
      some "--root=/tmp/root".data := by
  have h := claim_c10_installroot ["cache".data] "amd64".data [goodLine] false DlOutcome.ok
    coldCache ⟨["cache".data, "root".data], ["tmp".data, "root".data]⟩ (by decide)
  exact ⟨h.1, h.2.1 false "emerge".data⟩

/-- Claim C3: when the archive of the newly resolved snapshot is not yet cached,
`setup` evicts every cache subdirectory other than the snapshot directory
component before fetching — the whole trace is: index fetch, the evictions,
directory creation, archive fetch, extraction (the eviction also removed the
old extracted root), tools-tree copy; every eviction strictly precedes the
fetch and the extraction, no eviction happens anywhere else, and afterwards
the only directories in the cache root are the new snapshot directory and
the freshly extracted `root`. -/
theorem claim_c3_eviction (cacheDir : Pth) (arch : Str) (lines : List Str) (tools : Bool)
    (st : CacheState) (m : Str)
    (hres : resolve_latest arch lines = .ok m)
    (hmiss : existsArchive st (dirPart m) (filePart m) = false) :
    (setup cacheDir arch lines tools DlOutcome.ok st).events =
      Event.indexFetch ::
        ((st.dirs.filter (fun i => decide (i ≠ dirPart m))).map Event.evict ++
          [Event.mkdirOut (dirPart m), Event.archiveFetch, Event.extract] ++
          (if tools then [Event.copyTools] else [])) ∧
    (∀ x ∈ (setup cacheDir arch lines tools DlOutcome.ok st).cache.dirs,
      x = dirPart m ∨ x = "root".data) ∧
    dirPart m ∈ (setup cacheDir arch lines tools DlOutcome.ok st).cache.dirs ∧
    "root".data ∈ (setup cacheDir arch lines tools DlOutcome.ok st).cache.dirs := by
  obtain ⟨l, hl, hml⟩ := resolve_latest_ok_match hres
  have hner : dirPart m ≠ "root".data := stage3Match_dirPart_ne_root hml
  have hfil : ∀ x ∈ st.dirs.filter (fun i => decide (i = dirPart m)), x = dirPart m := by
    intro x hx
    exact of_decide_eq_true (List.mem_filter.mp hx).2
  have hD : ∀ x ∈ (if dirPart m ∈ st.dirs.filter (fun i => decide (i = dirPart m))
      then st.dirs.filter (fun i => decide (i = dirPart m))
      else st.dirs.filter (fun i => decide (i = dirPart m)) ++ [dirPart m]),
      x = dirPart m := by
    intro x hx
    by_cases hmem : dirPart m ∈ st.dirs.filter (fun i => decide (i = dirPart m))
    · rw [if_pos hmem] at hx; exact hfil x hx
    · rw [if_neg hmem] at hx
      rcases List.mem_append.mp hx with h1 | h1
      · exact hfil x h1
      · simpa using h1
  have hrootD : "root".data ∉ (if dirPart m ∈ st.dirs.filter (fun i => decide (i = dirPart m))
      then st.dirs.filter (fun i => decide (i = dirPart m))
      else st.dirs.filter (fun i => decide (i = dirPart m)) ++ [dirPart m]) := by
    intro hx
    exact hner (hD _ hx).symm
  have hdD : dirPart m ∈ (if dirPart m ∈ st.dirs.filter (fun i => decide (i = dirPart m))
      then st.dirs.filter (fun i => decide (i = dirPart m))
      else st.dirs.filter (fun i => decide (i = dirPart m)) ++ [dirPart m]) := by
    by_cases hmem : dirPart m ∈ st.dirs.filter (fun i => decide (i = dirPart m))
    · rwa [if_pos hmem]
    · rw [if_neg hmem]
      exact List.mem_append.mpr (Or.inr (by simp))
  unfold setup
  rw [hres]
  dsimp only []
  rw [if_neg (by simp [hmiss])]
  unfold afterFetch
  dsimp only []
  rw [if_neg hrootD]
  refine ⟨?_, ?_, ?_, ?_⟩
  · simp [decide_not]
  · intro x hx
    rcases List.mem_append.mp hx with h1 | h1
    · exact Or.inl (hD x h1)
    · exact Or.inr (by simpa using h1)
  · exact List.mem_append.mpr (Or.inl hdD)
  · exact List.mem_append.mpr (Or.inr (by simp))

/-- Witness for C3 on a cache holding a previous generation: the old snapshot
directory and the stale extracted root are evicted before the fetch, then the
new snapshot is fetched and extracted. -/
theorem claim_c3_eviction_witness :
    (setup ["cache".data] "amd64".data [goodLine] false DlOutcome.ok staleCache).events =
      [Event.indexFetch, Event.evict "20240101T000000Z".data, Event.evict "root".data,
       Event.mkdirOut tsDir, Event.archiveFetch, Event.extract] ∧
    (setup ["cache".data] "amd64".data [goodLine] false DlOutcome.ok staleCache).cache.dirs =
      [tsDir, "root".data] := by
  have h := claim_c3_eviction ["cache".data] "amd64".data [goodLine] false staleCache goodLine
    (by decide) (by decide)
  constructor
  · rw [h.1]; decide
  · decide

/-- Claim C7 (amended): in every successfully composed directive list the
overlay-lower directive precedes the overlay-upper directive, which precedes
the overlay-mount directive (the overlay-family sublist is exactly those
three, in order, given that the base-class contribution carries no overlay
directives) — but composition performs no validation of bind sources: a bind
directive may name a nonexistent source path and no configuration error is
raised for it. -/
theorem claim_c7_amended (superMounts : List Mount) (ctx : MountCtx) (l : List Mount)
    (hs : ∀ mnt ∈ superMounts, isOverlayDirective mnt = false)
    (hok : mounts superMounts ctx = .ok l) :
    ∃ lower, l.filter isOverlayDirective =
      [Mount.overlayLower lower, Mount.overlayUpper ["tmpfs".data],
       Mount.overlay ["etc".data, "portage".data]] := by
  have hsup : superMounts.filter isOverlayDirective = [] := by
    rw [List.filter_eq_nil_iff]
    intro a ha
    simp [hs a ha]
  cases htgt : ctx.make_profile_target with
  | none => rw [mounts, htgt] at hok; cases hok
  | some tgt =>
    rw [mounts, htgt] at hok
    injection hok with hok
    subst hok
    by_cases h1 :
      (ctx.sandbox_tree ++ ["stage3".data, "etc".data, "portage".data]) ∈ ctx.existing
    · refine ⟨ctx.sandbox_tree ++ ["stage3".data, "etc".data, "portage".data], ?_⟩
      cases hp : ctx.package_cache_dir <;>
        by_cases h2 :
          (ctx.sandbox_tree ++ ["installroot".data, "etc".data, "portage".data]) ∈
            ctx.existing <;>
        simp [List.filter_append, hsup, isOverlayDirective, h1, h2]
    · refine ⟨ctx.stage3 ++ ["etc".data, "portage".data], ?_⟩
      cases hp : ctx.package_cache_dir <;>
        by_cases h2 :
          (ctx.sandbox_tree ++ ["installroot".data, "etc".data, "portage".data]) ∈
            ctx.existing <;>
        simp [List.filter_append, hsup, isOverlayDirective, h1, h2]

/-- Witness for C7 (amended) at a concrete context with no base-class
contribution. -/
theorem claim_c7_amended_witness :
    ∃ lower, (mountsList (mounts [] ctx0)).filter isOverlayDirective =
      [Mount.overlayLower lower, Mount.overlayUpper ["tmpfs".data],
       Mount.overlay ["etc".data, "portage".data]] :=
  claim_c7_amended [] ctx0 (mountsList (mounts [] ctx0)) (by simp) (by decide)

/-- Claim C7 (counterexample): with a context in which no source path exists
on disk, composition still succeeds and emits a bind directive whose source
(`<stage3>/opt`) does not exist — it neither fails with a configuration
error nor omits the directive. -/
theorem claim_c7_counterexample :
    mountsOk (mounts [] ctx0) = true ∧
    ["stage3root".data, "opt".data] ∈ bindSrcs (mountsList (mounts [] ctx0)) ∧
    ["stage3root".data, "opt".data] ∉ ctx0.existing := by decide

/-- The path of the vmlinuz symlink for kernel version `v`. -/
def vmPath (v : Str) : Pth := ["usr".data, "lib".data, "modules".data, v, "vmlinuz".data]

/-- The module directory for kernel version `v`. -/
def vmParentPath (v : Str) : Pth := ["usr".data, "lib".data, "modules".data, v]

/-- The symlink target `os.path.relpath` produces: up three levels from
`usr/lib/modules/<v>` and down into `usr/src/linux-<v>/<arch image>`. -/
def vmTarget (arch : Arch) (v : Str) : Pth :=
  "..".data :: "..".data :: "..".data :: "src".data :: ("linux-".data ++ v) :: kimgRel arch

/-- The install root after the vmlinuz symlink has been created. -/
def withVm (arch : Arch) (v : Str) (fs : FS) : FS :=
  ⟨fs.entries ++ [(vmPath v, FsEntry.symlink (vmTarget arch v))]⟩

/-- Dropping the `linux-` prefix. -/
theorem drop_prefix_linux (v : Str) : ("linux-".data ++ v).drop 6 = v := rfl

/-- Lookup skips an appended left part that misses the key. -/
theorem lookupEntry_append_of_none {es : List (Pth × FsEntry)} {p : Pth}
    (h : lookupEntry es p = none) (tail : List (Pth × FsEntry)) :
    lookupEntry (es ++ tail) p = lookupEntry tail p := by
  induction es with
  | nil => rfl
  | cons x xs ih =>
    rw [lookupEntry] at h
    by_cases hx : x.1 = p
    · rw [if_pos hx] at h; cases h
    · rw [if_neg hx] at h
      rw [List.cons_append, lookupEntry, if_neg hx]
      exact ih h

/-- Claim C9: on an install root whose only kernel source tree is
`usr/src/linux-<v>` and whose module directory `usr/lib/modules/<v>` exists
with no `vmlinuz` entry yet, `install_packages` creates
`usr/lib/modules/<v>/vmlinuz` as a relative symlink to the
architecture-specific kernel image under the source directory, and re-running
`install_packages` leaves the root unchanged (the existing symlink is not
altered). -/
theorem claim_c9_kernel_symlink (arch : Arch) (v : Str) (fs : FS)
    (h1 : linuxSrcNames fs = ["linux-".data ++ v])
    (h2 : lookupEntry fs.entries (vmParentPath v) = some FsEntry.dir)
    (h3 : lookupEntry fs.entries (vmPath v) = none) :
    install_packages arch fs = .ok (withVm arch v fs) ∧
    lookupEntry (withVm arch v fs).entries (vmPath v) =
      some (FsEntry.symlink (vmTarget arch v)) ∧
    install_packages arch (withVm arch v fs) = .ok (withVm arch v fs) := by
  have hrel : relpathAux (["usr".data, "src".data, "linux-".data ++ v] ++ kimgRel arch)
      (vmParentPath v) = vmTarget arch v := by
    simp [relpathAux, vmParentPath, vmTarget]
  have hadd : addVmlinuz arch fs ("linux-".data ++ v) = .ok (withVm arch v fs) := by
    unfold addVmlinuz
    dsimp only []
    rw [drop_prefix_linux]
    rw [show (["usr".data, "lib".data, "modules".data, v] ++ ["vmlinuz".data]) = vmPath v
      from rfl]
    rw [show (["usr".data, "lib".data, "modules".data, v] : Pth) = vmParentPath v from rfl]
    rw [h3, h2]
    simp [withVm]
    exact hrel
  have hlook : lookupEntry (withVm arch v fs).entries (vmPath v) =
      some (FsEntry.symlink (vmTarget arch v)) := by
    unfold withVm
    rw [lookupEntry_append_of_none h3]
    simp [lookupEntry]
  have hnames : linuxSrcNames (withVm arch v fs) = ["linux-".data ++ v] := by
    have h4 : linuxSrcNames (withVm arch v fs) = linuxSrcNames fs ++ [] := by
      unfold linuxSrcNames withVm
      rw [List.filterMap_append]
      rfl
    rw [h4, List.append_nil, h1]
  have hadd2 : addVmlinuz arch (withVm arch v fs) ("linux-".data ++ v) =
      .ok (withVm arch v fs) := by
    unfold addVmlinuz
    dsimp only []
    rw [drop_prefix_linux]
    rw [show (["usr".data, "lib".data, "modules".data, v] ++ ["vmlinuz".data]) = vmPath v
      from rfl]
    rw [hlook]
    simp
  refine ⟨?_, hlook, ?_⟩
  · unfold install_packages
    rw [h1]
    simp only [List.foldlM]
    rw [hadd]
    rfl
  · unfold install_packages
    rw [hnames]
    simp only [List.foldlM]
    rw [hadd2]
    rfl

/-- Witness for C9 at a concrete install root with kernel 5.10.0 on x86_64:
the created entry is a relative symlink whose target resolves to
`usr/src/linux-5.10.0/arch/x86/boot/bzImage`. -/
theorem claim_c9_kernel_symlink_witness :
    install_packages Arch.x86_64 fs9 = .ok (withVm Arch.x86_64 "5.10.0".data fs9) ∧
    vmTarget Arch.x86_64 "5.10.0".data =
      ["..".data, "..".data, "..".data, "src".data, "linux-5.10.0".data, "arch".data,
       "x86".data, "boot".data, "bzImage".data] := by
  have h := claim_c9_kernel_symlink Arch.x86_64 "5.10.0".data fs9 (by decide) (by decide)
    (by decide)
  exact ⟨h.1, by decide⟩

end Emerge
